import Mathlib

/-!
Verification of the patil.ai voice-assistant repository.

The development shallowly embeds the three source files:

* `src/src/components/VoiceAssistant.tsx` — the local-engine variant, whose
  `generateResponse` is a keyword/regex cascade over the lower-cased
  transcript (embedded below as `generateResponse` / `localRespond`);
* `src/supabase/functions/chat/index.ts` — the Supabase edge function that
  proxies to the OpenAI chat-completions endpoint (embedded as
  `buildMessages` and `chatHandler`);
* `src/unnamed/part_000` — the remote-engine variant of the component, whose
  React state and event handlers form the conversation controller (embedded
  as `SessionState`, `toggleListening`, `clickToggle`, `engineApply`, `step`,
  `Reachable`).

Wall-clock values (`toLocaleTimeString`, `toLocaleDateString`) are passed in
as string parameters; the network and the speech platform appear as oracle
data (`Upstream`, `EngineResult`, `Event`).
-/

namespace PatilAI

/-- One entry of the conversation history and of the upstream message list:
`{ role, content }` as used by both the front end and the edge function. -/
structure ChatMsg where
  role : String
  content : String
deriving DecidableEq

/-! ## JavaScript string primitives -/

/-- Substring occurrence on character lists: `pat` occurs somewhere in the
list.  Drives the embedding of `String.prototype.includes`. -/
def hasSubstr (pat : List Char) : List Char → Bool
  | [] => pat.isEmpty
  | c :: t => pat.isPrefixOf (c :: t) || hasSubstr pat t

/-- Embeds `s.includes(pat)` of JavaScript: `pat` occurs contiguously in `s`. -/
def strIncludes (s pat : String) : Bool :=
  hasSubstr pat.data s.data

/-- Embeds `s.toLowerCase()` as applied in `processCommand`
(`generateResponse(command.toLowerCase())`).  `Char.toLower` lowers the ASCII
letters, which is what `toLowerCase` does on the ASCII transcripts concerned;
locale-specific Unicode lowering is not modelled. -/
def jsToLower (s : String) : String :=
  String.mk (s.data.map Char.toLower)

/-! ## Local response engine (`VoiceAssistant.tsx`, `generateResponse`) -/

/-- The four operation words of the arithmetic regex
`/what is (\d+) (plus|minus|times|divided by) (\d+)/`. -/
inductive MathOp where
  | plus
  | minus
  | times
  | dividedBy
deriving DecidableEq

/-- The matched operation word, i.e. the regex's second capture group. -/
def opString : MathOp → String
  | .plus => "plus"
  | .minus => "minus"
  | .times => "times"
  | .dividedBy => "divided by"

/-- A JavaScript number as produced by the arithmetic branch: a finite value,
kept exact as the (not necessarily reduced) fraction `n / d` with `d ≠ 0` —
the small operands of interest are exactly representable as doubles — or the
`Infinity` / `NaN` specials that division can produce. -/
inductive JSNum where
  | frac (n : Int) (d : Nat)
  | posInf
  | nan
deriving DecidableEq

/-- The `switch (operation)` of `generateResponse`: JavaScript `+`, `-`, `*`,
`/` on the two parsed operands.  Operands come from `\d+` so they are
non-negative; `a / 0` is `Infinity` for `a > 0` and `NaN` for `0 / 0`,
exactly the platform semantics the source leaves un-special-cased. -/
def applyOp : MathOp → Nat → Nat → JSNum
  | .plus, a, b => .frac ((a : Int) + b) 1
  | .minus, a, b => .frac ((a : Int) - b) 1
  | .times, a, b => .frac ((a : Int) * b) 1
  | .dividedBy, a, b =>
    if b = 0 then (if a = 0 then .nan else .posInf)
    else .frac (a : Int) b

/-- Decimal digits of the fractional part `r / d` (with `r < d`), by long
division, cut off after `fuel` digits. -/
def fracDigits : Nat → Nat → Nat → String
  | 0, _, _ => ""
  | _ + 1, 0, _ => ""
  | fuel + 1, r, d =>
    toString (r * 10 / d) ++ fracDigits fuel (r * 10 % d) d

/-- Embeds the template interpolation of `result`: integers print with no
decimal point, `Infinity` and `NaN` print as their JavaScript names.
Non-integer quotients print their exact decimal expansion (cut at 17 digits),
which approximates JavaScript's shortest-round-trip `Number#toString`; no
claim below depends on a non-terminating expansion, where the double rounding
that this rendering elides would show. -/
def jsNumToString : JSNum → String
  | .nan => "NaN"
  | .posInf => "Infinity"
  | .frac n d =>
    (if n < 0 then "-" else "") ++ toString (n.natAbs / d) ++
      (if n.natAbs % d = 0 then ""
       else "." ++ fracDigits 17 (n.natAbs % d) d)

/-- Splits a character list into its maximal leading run of decimal digits
and the rest, as the greedy `\d+` does. -/
def splitDigits : List Char → List Char × List Char
  | [] => ([], [])
  | c :: t =>
    if c.isDigit then
      let p := splitDigits t
      (c :: p.1, p.2)
    else ([], c :: t)

/-- `parseInt` on a run of decimal digits.  (For runs short enough to be
exact doubles, which covers every input below, `parseInt` returns exactly
this value.) -/
def digitsToNat (l : List Char) : Nat :=
  l.foldl (fun n c => n * 10 + (c.toNat - 48)) 0

/-- The regex alternation `(plus|minus|times|divided by)`, alternatives tried
in source order; returns the operation and the characters after it. -/
def matchOps (l : List Char) : Option (MathOp × List Char) :=
  if "plus".data.isPrefixOf l then some (.plus, l.drop 4)
  else if "minus".data.isPrefixOf l then some (.minus, l.drop 5)
  else if "times".data.isPrefixOf l then some (.times, l.drop 5)
  else if "divided by".data.isPrefixOf l then some (.dividedBy, l.drop 10)
  else none

/-- One attempt of `/what is (\d+) (plus|minus|times|divided by) (\d+)/` at a
fixed start position: the literal `"what is "`, a non-empty digit run, a
space, an operation word, a space, a non-empty digit run.  Greedy `\d+`
followed by a literal space cannot back off (a shorter run still faces a
digit), so the maximal-run reading is exactly the regex's. -/
def matchMathAt (l : List Char) : Option (Nat × MathOp × Nat) :=
  if "what is ".data.isPrefixOf l then
    let p1 := splitDigits (l.drop 8)
    if p1.1.isEmpty then none
    else
      match p1.2 with
      | ' ' :: r2 =>
        match matchOps r2 with
        | some (op, r3) =>
          match r3 with
          | ' ' :: r4 =>
            let p2 := splitDigits r4
            if p2.1.isEmpty then none
            else some (digitsToNat p1.1, op, digitsToNat p2.1)
          | _ => none
        | none => none
      | _ => none
  else none

/-- The unanchored search `command.match(...)`: the regex engine tries each
start position left to right and returns the first success. -/
def mathMatch : List Char → Option (Nat × MathOp × Nat)
  | [] => none
  | c :: t =>
    match matchMathAt (c :: t) with
    | some r => some r
    | none => mathMatch t

/-- The fixed greeting of the first branch. -/
def greetingResponse : String :=
  "Hello! I'm your personal voice assistant. How can I help you today?"

/-- The fallback of the cascade, echoing the heard command. -/
def fallbackResponse (command : String) : String :=
  "I heard you say: '" ++ command ++
    "'. I'm still learning, but I can help with time, date, simple math, and basic commands. What would you like me to do?"

/-- Embeds `generateResponse` of `VoiceAssistant.tsx` verbatim: the keyword
branches in source order, then the arithmetic regex, then the fallback.
`command` is the already lower-cased transcript; `timeStr` and `dateStr`
stand for `now.toLocaleTimeString()` and the locale-formatted
`now.toLocaleDateString(...)`. -/
def generateResponse (timeStr dateStr command : String) : String :=
  if strIncludes command "hello" || strIncludes command "hi" then
    greetingResponse
  else if strIncludes command "time" then
    "The current time is " ++ timeStr ++ "."
  else if strIncludes command "date" then
    "Today is " ++ dateStr ++ "."
  else if strIncludes command "weather" then
    "I'd love to help with the weather, but I need to be connected to a weather service. For now, I recommend checking your local weather app."
  else if strIncludes command "remind" || strIncludes command "reminder" then
    "I've noted your reminder request. In a full implementation, I would set up notifications for you."
  else if strIncludes command "play music" || strIncludes command "play song" then
    "I'd be happy to play music for you. In a full implementation, I would connect to your music streaming service."
  else if strIncludes command "calculate" || strIncludes command "math" then
    "I can help with calculations. Try asking me specific math questions like 'what is 25 times 4?'"
  else if strIncludes command "search" || strIncludes command "look up" then
    "I can help you search for information. In a full implementation, I would perform web searches and provide results."
  else
    match mathMatch command.data with
    | some (a, op, b) =>
      toString a ++ " " ++ opString op ++ " " ++ toString b ++ " equals " ++
        jsNumToString (applyOp op a b) ++ "."
    | none => fallbackResponse command

/-- The local engine as invoked by `processCommand`:
`generateResponse(command.toLowerCase())`. -/
def localRespond (timeStr dateStr input : String) : String :=
  generateResponse timeStr dateStr (jsToLower input)

/-! ## Remote proxy (`supabase/functions/chat/index.ts`) -/

/-- The fixed system instruction of the edge function (the Nova persona
prompt), verbatim. -/
def systemPromptContent : String :=
  "You are Nova, an advanced AI voice assistant. You are helpful, knowledgeable, and conversational. \n\nKey characteristics:\n- Respond naturally and conversationally like a human assistant\n- Keep responses concise but informative (ideal for voice)\n- Be friendly and engaging\n- Help with a wide range of tasks: questions, calculations, explanations, advice, creative tasks\n- When asked about time/date, remind users you don't have real-time access\n- For weather, web searches, or real-time data, explain you'd need internet access\n- Be encouraging and positive\n- Adapt your tone to match the user's energy\n\nRemember: Your responses will be spoken aloud, so write for speech, not text."

/-- The system entry heading the upstream message list. -/
def systemMessage : ChatMsg :=
  { role := "system", content := systemPromptContent }

/-- The trailing user entry wrapping the new message. -/
def userMessage (message : String) : ChatMsg :=
  { role := "user", content := message }

/-- Embeds `conversationHistory.slice(-10)`: the last ten entries, the whole
list when it has ten or fewer (`slice(-10)` clamps its start to `0`). -/
def lastTen (l : List ChatMsg) : List ChatMsg :=
  l.drop (l.length - 10)

/-- Embeds the `messages` array of the edge function: the fixed system
instruction, `...conversationHistory.slice(-10)`, then `{ role: 'user',
content: message }`. -/
def buildMessages (conversationHistory : List ChatMsg) (message : String) : List ChatMsg :=
  systemMessage :: (lastTen conversationHistory ++ [userMessage message])

/-- The destructured request body
`{ message, conversationHistory = [] }` after `await req.json()`; the default
for an absent history is already folded in. -/
structure ChatBody where
  message : String
  conversationHistory : List ChatMsg
deriving DecidableEq

/-- Outcome of `await req.json()`: a parsed body, or the thrown parse error's
message (a malformed body makes `req.json()` reject). -/
inductive ReqBody where
  | ok (body : ChatBody)
  | parseError (message : String)
deriving DecidableEq

/-- An incoming HTTP request, reduced to what the handler inspects: the
method and the body's parse outcome. -/
structure HttpRequest where
  method : String
  body : ReqBody
deriving DecidableEq

/-- Oracle for the upstream `fetch` to the chat-completions endpoint:
either the response (its status, and `data.choices[0]?.message?.content` as
an optional string) or a rejected `fetch` / unparseable upstream body, whose
error message propagates to the catch block. -/
inductive Upstream where
  | result (status : Nat) (content : Option String)
  | fetchError (message : String)
deriving DecidableEq

/-- The body of the handler's `Response`: the plain `'ok'` text of the
preflight branch, or the JSON object `{ response, success, error? }`. -/
inductive RespBody where
  | text (s : String)
  | json (response : String) (success : Bool) (error : Option String)
deriving DecidableEq

/-- The handler's `Response`, reduced to status and body (the CORS headers,
attached identically on every branch, are not modelled). -/
structure HttpResponse where
  status : Nat
  body : RespBody
deriving DecidableEq

/-- Whether a response body is a JSON object carrying the `success` (and
`response`) fields; the preflight's plain `'ok'` text is not. -/
def hasSuccessField : RespBody → Bool
  | .json _ _ _ => true
  | .text _ => false

/-- The fixed apology returned in the `response` field of every error
answer. -/
def proxyApology : String :=
  "I'm sorry, I'm having trouble processing your request right now. Please try again."

/-- The catch block's answer: status 200 (deliberately, `// Return 200 to
avoid network errors on frontend`) with the apology, `success: false` and
the caught error's message. -/
def errorResponse (message : String) : HttpResponse :=
  { status := 200, body := .json proxyApology false (some message) }

/-- Embeds the `serve` handler of `index.ts`.  `apiKey` is
`Deno.env.get('OPENAI_API_KEY')`; `upstream` is the oracle for the OpenAI
call.  Branches in source order: the OPTIONS preflight, the body parse, the
missing-key throw, the non-2xx throw (`response.ok` is status 200–299), the
falsy-completion throw (`!aiResponse` catches both an absent and an empty
content), the success answer; every throw lands in the catch block of
`errorResponse`. -/
def chatHandler (apiKey : Option String) (upstream : Upstream) (req : HttpRequest) :
    HttpResponse :=
  if req.method = "OPTIONS" then { status := 200, body := .text "ok" }
  else
    match req.body with
    | .parseError m => errorResponse m
    | .ok _ =>
      match apiKey with
      | none => errorResponse "OpenAI API key not configured"
      | some _ =>
        match upstream with
        | .fetchError m => errorResponse m
        | .result status content =>
          if ¬ (200 ≤ status ∧ status ≤ 299) then
            errorResponse ("OpenAI API error: " ++ toString status)
          else
            match content with
            | none => errorResponse "No response from AI"
            | some aiResponse =>
              if aiResponse = "" then errorResponse "No response from AI"
              else { status := 200, body := .json aiResponse true none }

/-! ## Conversation controller (`src/unnamed/part_000`) -/

/-- The React state of the remote-variant component, plus `pendingCommand`,
which embeds the `command` argument that the `processCommand` closure holds
on to between `setIsProcessing(true)` and the history update. -/
structure SessionState where
  isListening : Bool
  isProcessing : Bool
  transcript : String
  response : String
  isSupported : Bool
  needsApiKey : Bool
  conversationHistory : List ChatMsg
  pendingCommand : String
deriving DecidableEq

/-- The component's state after mount: every `useState` initial value, with
`isSupported` set by the feature-detecting `useEffect` (`supported` says
whether the platform offers recognizer and synthesizer). -/
def initState (supported : Bool) : SessionState :=
  { isListening := false
    isProcessing := false
    transcript := ""
    response := ""
    isSupported := supported
    needsApiKey := false
    conversationHistory := []
    pendingCommand := "" }

/-- The capture-session side effect of a toggle: `recognition.start()` or
`recognition.stop()`. -/
inductive CaptureEffect where
  | start
  | stop
deriving DecidableEq

/-- Embeds `toggleListening`: bail out (toast only) when unsupported,
otherwise stop an active capture session, or clear transcript/response and
start one.  (`recognitionRef.current` is set exactly when `isSupported` was
set, so the guard reduces to the flag.) -/
def toggleListening (s : SessionState) : SessionState × Option CaptureEffect :=
  if ¬ s.isSupported then (s, none)
  else if s.isListening then ({ s with isListening := false }, some .stop)
  else ({ s with transcript := "", response := "", isListening := true }, some .start)

/-- A click on the voice button, which is rendered with
`disabled={isProcessing}`: the click reaches `toggleListening` only while
`isProcessing` is false. -/
def clickToggle (s : SessionState) : SessionState × Option CaptureEffect :=
  if s.isProcessing then (s, none) else toggleListening s

/-- Completion of the awaited engine call inside `processCommand`: either
`supabase.functions.invoke` yielded an `error` that is thrown (its message),
or it yielded `data` with `success`, optional `error` and `response`
fields. -/
inductive EngineResult where
  | invokeError (message : String)
  | data (success : Bool) (error : Option String) (response : String)
deriving DecidableEq

/-- `data.error?.includes('API key')` with the optional chaining: an absent
error field is falsy. -/
def errMentionsApiKey : Option String → Bool
  | some e => strIncludes e "API key"
  | none => false

/-- Whether an engine result reports the missing-credential condition: a
thrown error whose message mentions `API key`, or a `data` payload with
`success` false and such an error field. -/
def reportsMissingCredential : EngineResult → Bool
  | .invokeError m => strIncludes m "API key"
  | .data success error _ => !success && errMentionsApiKey error

/-- The fixed missing-key reply assigned in the catch block. -/
def missingKeyResponse : String :=
  "I need an OpenAI API key to provide intelligent responses. Please configure your API key to continue."

/-- The generic catch-block reply. -/
def genericErrorResponse : String :=
  "I'm sorry, I encountered an error processing your request."

/-- Embeds the tail of `processCommand`, from the engine call's completion
on.  A thrown invoke error, and a `data` with `success` false and an
`API key` error (which throws `'OpenAI API key not configured'`), land in
the catch block: the reply depends on whether the message mentions
`API key`, and `needsApiKey` is set in exactly that case.  Otherwise
`data.response` is stored, both turns are appended to the history, and the
reply is spoken.  `finally` clears `isProcessing` on every path. -/
def engineApply (s : SessionState) (r : EngineResult) : SessionState :=
  match r with
  | .invokeError m =>
    if strIncludes m "API key" then
      { s with response := missingKeyResponse, needsApiKey := true, isProcessing := false }
    else
      { s with response := genericErrorResponse, isProcessing := false }
  | .data success error resp =>
    if !success && errMentionsApiKey error then
      { s with response := missingKeyResponse, needsApiKey := true, isProcessing := false }
    else
      { s with
          response := resp,
          conversationHistory := s.conversationHistory ++
            [{ role := "user", content := s.pendingCommand },
             { role := "assistant", content := resp }],
          isProcessing := false }

/-- The controller's event sources: a click on the voice button, an
`onresult` with a non-final or final transcript, the completion of the
awaited engine call, and `onerror` / `onend` of the recognizer. -/
inductive Event where
  | click
  | interim (t : String)
  | final (t : String)
  | engine (r : EngineResult)
  | recogError
  | recogEnd
deriving DecidableEq

/-- One controller transition.  `interim` is `setTranscript` alone; `final`
is `setTranscript`, `setIsListening(false)` and the `setIsProcessing(true)`
head of `processCommand` (recording the command the closure captures);
`engine` is the rest of `processCommand`; `recogError` and `recogEnd` each
`setIsListening(false)`. -/
def step (s : SessionState) (e : Event) : SessionState :=
  match e with
  | .click => (clickToggle s).1
  | .interim t => { s with transcript := t }
  | .final t =>
    { s with transcript := t, isListening := false, isProcessing := true, pendingCommand := t }
  | .engine r => engineApply s r
  | .recogError => { s with isListening := false }
  | .recogEnd => { s with isListening := false }

/-- The states the controller can reach: some mount state, closed under
transitions. -/
inductive Reachable : SessionState → Prop where
  | init (supported : Bool) : Reachable (initState supported)
  | succ {s : SessionState} (e : Event) : Reachable s → Reachable (step s e)

end PatilAI

namespace PatilAI

/-! ## Helper lemmas and example states -/

/-- Whether the upstream call failed in one of the ways the handler treats
as an error: a rejected fetch, a non-2xx status, or an absent or empty
completion body. -/
def upstreamFailed : Upstream → Bool
  | .result status content =>
    decide (¬ (200 ≤ status ∧ status ≤ 299)) ||
      (match content with
       | none => true
       | some c => decide (c = ""))
  | .fetchError _ => true

/-- A mid-processing controller state, for concrete instantiations. -/
def processingExample : SessionState :=
  { initState true with
      isProcessing := true
      transcript := "what is the time"
      pendingCommand := "what is the time" }

/-- A controller state whose missing-credential flag is already set. -/
def credFlaggedExample : SessionState :=
  { initState true with needsApiKey := true }

theorem clickToggle_needsApiKey (s : SessionState) :
    ((clickToggle s).1).needsApiKey = s.needsApiKey := by
  unfold clickToggle toggleListening
  cases hp : s.isProcessing
  · cases hsup : s.isSupported
    · simp [hsup]
    · cases hl : s.isListening <;> simp [hsup, hl]
  · simp [hp]

theorem engineApply_isProcessing (s : SessionState) (r : EngineResult) :
    (engineApply s r).isProcessing = false := by
  cases r with
  | invokeError m => simp only [engineApply]; split <;> rfl
  | data success error resp => simp only [engineApply]; split <;> rfl

theorem clickToggle_exclusion (s : SessionState)
    (h : s.isListening = true → s.isProcessing = false) :
    ((clickToggle s).1).isListening = true → ((clickToggle s).1).isProcessing = false := by
  rcases s with ⟨l, p, tr, resp, sup, nk, hist, pc⟩
  cases l <;> cases p <;> cases sup <;>
    simp_all [clickToggle, toggleListening]

theorem step_preserves_exclusion (s : SessionState) (e : Event)
    (h : s.isListening = true → s.isProcessing = false) :
    (step s e).isListening = true → (step s e).isProcessing = false := by
  cases e with
  | click => exact clickToggle_exclusion s h
  | interim t => exact h
  | final t => intro hl; cases hl
  | engine r => intro _; exact engineApply_isProcessing s r
  | recogError => intro hl; cases hl
  | recogEnd => intro hl; cases hl

/-! ## The claims -/

/-- C1: for every history and new message, the upstream message list the
proxy builds is the fixed system instruction, then exactly the most recent
`min 10 (length history)` entries of the history — a suffix of the history,
hence oldest-first and unmodified — then the new user message. -/
theorem c1_upstream_window (history : List ChatMsg) (message : String) :
    ∃ dropped kept,
      history = dropped ++ kept ∧
      kept.length = min 10 history.length ∧
      buildMessages history message = systemMessage :: (kept ++ [userMessage message]) := by
  refine ⟨history.take (history.length - 10), history.drop (history.length - 10),
    (List.take_append_drop _ _).symm, ?_, rfl⟩
  rw [List.length_drop]
  omega

/-- C2 (code bug): on the input `what is 25 times 4` the local engine takes
the `time` keyword branch — `"times"` contains the substring `"time"` — and
answers with the current time, although the arithmetic branch, had it been
reached, would have answered `100` as the claim (and the component's own
suggested-commands card) expects. -/
theorem c2_time_keyword_shadows_math (timeStr dateStr : String) :
    localRespond timeStr dateStr "what is 25 times 4" =
      "The current time is " ++ timeStr ++ "." ∧
    mathMatch (jsToLower "what is 25 times 4").data = some (25, MathOp.times, 4) ∧
    jsNumToString (applyOp MathOp.times 25 4) = "100" :=
  ⟨rfl, rfl, rfl⟩

/-- C3 (counterexample): a CORS preflight is a request to the proxy, and its
response body is the plain text `ok`, not a JSON object with `response` and
`success` fields. -/
theorem c3_preflight_counterexample :
    chatHandler (some "sk-test") (Upstream.result 200 (some "Hello there"))
        { method := "OPTIONS",
          body := ReqBody.ok { message := "hello", conversationHistory := [] } } =
      { status := 200, body := RespBody.text "ok" } ∧
    hasSuccessField (RespBody.text "ok") = false :=
  ⟨rfl, rfl⟩

/-- C3 (amended): for every request other than the `OPTIONS` preflight the
proxy answers status 200 with a JSON body carrying `response` and `success`,
`error` present exactly on failure, and every upstream failure — non-2xx
status, absent or empty completion, rejected fetch — surfaces only as
`success = false`, never as a non-200 status. -/
theorem c3_always_200_json (apiKey : Option String) (upstream : Upstream)
    (req : HttpRequest) (hm : req.method ≠ "OPTIONS") :
    ∃ response success error,
      chatHandler apiKey upstream req =
        { status := 200, body := RespBody.json response success error } ∧
      (success = true ↔ error = none) ∧
      (upstreamFailed upstream = true → success = false) := by
  rcases req with ⟨method, body⟩
  simp only at hm
  unfold chatHandler
  rw [if_neg hm]
  rcases body with b | m
  · rcases apiKey with _ | key
    · exact ⟨proxyApology, false, some "OpenAI API key not configured", rfl, by simp,
        fun _ => rfl⟩
    · rcases upstream with ⟨status, content⟩ | m
      · by_cases hst : 200 ≤ status ∧ status ≤ 299
        · rcases content with _ | c
          · exact ⟨proxyApology, false, some "No response from AI",
              by simp [hst, errorResponse], by simp, fun _ => rfl⟩
          · by_cases hc : c = ""
            · subst hc
              exact ⟨proxyApology, false, some "No response from AI",
                by simp [hst, errorResponse], by simp, fun _ => rfl⟩
            · refine ⟨c, true, none, by simp [hst, hc], by simp, ?_⟩
              intro hfail
              exact absurd hfail (by simp [upstreamFailed, hst, hc])
        · exact ⟨proxyApology, false, some ("OpenAI API error: " ++ toString status),
            by simp [hst, errorResponse], by simp, fun _ => rfl⟩
      · exact ⟨proxyApology, false, some m, rfl, by simp, fun _ => rfl⟩
  · exact ⟨proxyApology, false, some m, rfl, by simp, fun _ => rfl⟩

theorem c3_always_200_json_witness :
    ∃ response success error,
      chatHandler (some "sk-test") (Upstream.result 500 none)
          { method := "POST",
            body := ReqBody.ok { message := "hello", conversationHistory := [] } } =
        { status := 200, body := RespBody.json response success error } ∧
      (success = true ↔ error = none) ∧
      (upstreamFailed (Upstream.result 500 none) = true → success = false) :=
  c3_always_200_json (some "sk-test") (Upstream.result 500 none)
    { method := "POST", body := ReqBody.ok { message := "hello", conversationHistory := [] } }
    (by decide)

/-- C4: while `isProcessing` is true the voice button is disabled, so a
click changes no field of the session state and neither starts nor stops a
capture session. -/
theorem c4_toggle_noop_while_processing (s : SessionState) (h : s.isProcessing = true) :
    clickToggle s = (s, none) := by
  unfold clickToggle
  rw [h]
  rfl

theorem c4_toggle_noop_while_processing_witness :
    clickToggle processingExample = (processingExample, none) :=
  c4_toggle_noop_while_processing processingExample rfl

/-- C5: on `what is 10 divided by 0` the arithmetic branch matches and the
un-special-cased JavaScript division `10 / 0` prints as `Infinity`, so the
reply is `10 divided by 0 equals Infinity.` — which contains `Infinity`. -/
theorem c5_divide_by_zero_infinity (timeStr dateStr : String) :
    localRespond timeStr dateStr "what is 10 divided by 0" =
      "10 divided by 0 equals Infinity." ∧
    strIncludes "10 divided by 0 equals Infinity." "Infinity" = true :=
  ⟨rfl, rfl⟩

/-- C6 (counterexample): a request whose body is not valid JSON, sent while
no credential is configured, is answered 200 / `success: false`, but the
`error` field is the JSON parse failure, which does not contain `API key`. -/
theorem c6_parse_error_counterexample :
    chatHandler none (Upstream.result 200 (some "Hello there"))
        { method := "POST", body := ReqBody.parseError "Unexpected end of JSON input" } =
      { status := 200,
        body := RespBody.json proxyApology false (some "Unexpected end of JSON input") } ∧
    strIncludes "Unexpected end of JSON input" "API key" = false :=
  ⟨rfl, rfl⟩

/-- C6 (amended): every non-preflight request whose body parses as JSON,
made while no credential is configured, is answered with status 200,
`success: false`, and the error message `OpenAI API key not configured`,
which contains `API key`. -/
theorem c6_missing_key_reported (upstream : Upstream) (req : HttpRequest) (b : ChatBody)
    (hm : req.method ≠ "OPTIONS") (hb : req.body = ReqBody.ok b) :
    chatHandler none upstream req =
      { status := 200,
        body := RespBody.json proxyApology false (some "OpenAI API key not configured") } ∧
    strIncludes "OpenAI API key not configured" "API key" = true := by
  refine ⟨?_, rfl⟩
  rcases req with ⟨method, body⟩
  simp only at hm hb
  subst hb
  unfold chatHandler
  rw [if_neg hm]
  rfl

theorem c6_missing_key_reported_witness :
    chatHandler none (Upstream.result 200 (some "Hello there"))
        { method := "POST",
          body := ReqBody.ok { message := "hello", conversationHistory := [] } } =
      { status := 200,
        body := RespBody.json proxyApology false (some "OpenAI API key not configured") } ∧
    strIncludes "OpenAI API key not configured" "API key" = true :=
  c6_missing_key_reported (Upstream.result 200 (some "Hello there"))
    { method := "POST", body := ReqBody.ok { message := "hello", conversationHistory := [] } }
    { message := "hello", conversationHistory := [] } (by decide) rfl

/-- C7: in every reachable controller state, `isListening` and
`isProcessing` are not both true: the final-transcript transition clears
`isListening` in the same update that sets `isProcessing`, and the disabled
button admits no listening start while processing. -/
theorem c7_never_listening_and_processing (s : SessionState) (h : Reachable s) :
    ¬ (s.isListening = true ∧ s.isProcessing = true) := by
  have key : s.isListening = true → s.isProcessing = false := by
    induction h with
    | init supported => intro _; rfl
    | succ e _ ih => exact step_preserves_exclusion _ e ih
  rintro ⟨h1, h2⟩
  rw [key h1] at h2
  exact Bool.noConfusion h2

theorem c7_never_listening_and_processing_witness :
    ¬ ((initState true).isListening = true ∧ (initState true).isProcessing = true) :=
  c7_never_listening_and_processing (initState true) (Reachable.init true)

/-- C8: `needsApiKey` is monotone — no transition resets it — and the only
transition that sets it is the completion of an engine call whose result or
thrown error reports a missing credential (a message containing `API key`). -/
theorem c8_needs_credential_monotone :
    (∀ (s : SessionState) (e : Event),
      s.needsApiKey = true → (step s e).needsApiKey = true) ∧
    (∀ (s : SessionState) (e : Event),
      (step s e).needsApiKey = true →
        s.needsApiKey = true ∨
          ∃ r, e = Event.engine r ∧ reportsMissingCredential r = true) := by
  constructor
  · intro s e h
    cases e with
    | click => rw [step, clickToggle_needsApiKey]; exact h
    | interim t => exact h
    | final t => exact h
    | engine r =>
      cases r with
      | invokeError m =>
        simp only [step, engineApply]
        split
        · rfl
        · exact h
      | data success error resp =>
        simp only [step, engineApply]
        split
        · rfl
        · exact h
    | recogError => exact h
    | recogEnd => exact h
  · intro s e h
    cases e with
    | click => left; rw [step, clickToggle_needsApiKey] at h; exact h
    | interim t => left; exact h
    | final t => left; exact h
    | engine r =>
      cases r with
      | invokeError m =>
        simp only [step, engineApply] at h
        by_cases hk : strIncludes m "API key" = true
        · right
          exact ⟨.invokeError m, rfl, by simp [reportsMissingCredential, hk]⟩
        · left
          rw [if_neg hk] at h
          exact h
      | data success error resp =>
        simp only [step, engineApply] at h
        by_cases hk : (!success && errMentionsApiKey error) = true
        · right
          exact ⟨.data success error resp, rfl, by simp [reportsMissingCredential, hk]⟩
        · left
          rw [if_neg hk] at h
          exact h
    | recogError => left; exact h
    | recogEnd => left; exact h

theorem c8_needs_credential_monotone_witness :
    (step credFlaggedExample Event.click).needsApiKey = true :=
  c8_needs_credential_monotone.1 credFlaggedExample Event.click rfl

/-- C9: the greeting branch tests `includes`, a substring check, so every
input whose lower-casing contains `hi` anywhere — also inside another word —
gets the fixed greeting and reaches no later branch. -/
theorem c9_greeting_substring (timeStr dateStr input : String)
    (h : strIncludes (jsToLower input) "hi" = true) :
    localRespond timeStr dateStr input = greetingResponse := by
  unfold localRespond generateResponse
  rw [h]
  simp

theorem c9_greeting_substring_witness :
    strIncludes (jsToLower "Which") "hi" = true ∧
    localRespond "12:00:00 PM" "Monday, January 1, 2026" "Which" = greetingResponse :=
  ⟨by decide, c9_greeting_substring "12:00:00 PM" "Monday, January 1, 2026" "Which" (by decide)⟩

/-- C10 (counterexample): `what is 1 plus 2.5` contains the non-integer
operand `2.5`, yet the unanchored pattern still matches, capturing the
integer prefix `2` and answering `1 plus 2 equals 3.` — so the arithmetic
branch does match an input with a non-integer operand. -/
theorem c10_second_operand_counterexample :
    strIncludes "what is 1 plus 2.5" "2.5" = true ∧
    mathMatch (jsToLower "what is 1 plus 2.5").data = some (1, MathOp.plus, 2) ∧
    localRespond "12:00:00 PM" "Monday, January 1, 2026" "what is 1 plus 2.5" =
      "1 plus 2 equals 3." :=
  ⟨rfl, rfl, rfl⟩

/-- C10 (amended): the pattern's captured operands are maximal digit runs,
so a signed or non-integer first operand (`what is -5 plus 3`,
`what is 2.5 times 4`) fails the arithmetic branch — falling to the fallback
echo when no earlier keyword branch matched — while a non-integer second
operand (`what is 1 plus 2.5`) still matches through its integer prefix,
the pattern being unanchored. -/
theorem c10_integer_operands (timeStr dateStr : String) :
    mathMatch (jsToLower "what is -5 plus 3").data = none ∧
    localRespond timeStr dateStr "what is -5 plus 3" =
      fallbackResponse "what is -5 plus 3" ∧
    mathMatch (jsToLower "what is 2.5 times 4").data = none ∧
    mathMatch (jsToLower "what is 1 plus 2.5").data = some (1, MathOp.plus, 2) ∧
    localRespond timeStr dateStr "what is 1 plus 2.5" = "1 plus 2 equals 3." :=
  ⟨rfl, rfl, rfl, rfl, rfl⟩

end PatilAI
